import Mathlib

/-!
Shallow embedding of `src/envelope.rs` of the `opaque-ke` repository: the
OPAQUE envelope mechanism (seal / open / serialize / deserialize / dummy).

Byte strings are modelled as `List Nat` (each entry one byte).  The external
cryptographic collaborators (the HKDF keyed-expansion primitive, the HMAC
primitive, and the key-exchange group's hash-to-scalar and scalar-to-point
operations) are not part of this repository's core; they are modelled as an
abstract `Primitives` structure carrying the interface the core consumes,
together with the length guarantees those interfaces provide (HKDF `expand`
fills a buffer of the requested size, HMAC tags have the hash's output size).
A concrete executable instance `P0` is provided for evaluation.

The `randomized_pwd_hasher : Hkdf<CS::Hash>` handle is modelled as its
pseudorandom key `prk : Bytes`; the two call shapes of the hkdf crate,
`expand` (single info byte string) and `expand_multi_info` (ordered list of
info parts, processed as one logical byte string), are modelled on top of the
single primitive `Primitives.hkdfExpand`.

The random-number generator passed to `seal` is modelled as a byte stream
`Nat → Nat`; `seal` consumes exactly its first 32 bytes for the nonce
(`rng.fill_bytes(&mut nonce)` in the source).
-/

namespace OpaqueKe

/-- Byte strings: lists of bytes, each a natural number (values < 256 in any
real execution; none of the statements below depends on the bound). -/
abbrev Bytes := List Nat

/-- `const STR_AUTH_KEY: [u8; 7] = *b"AuthKey"` -/
def STR_AUTH_KEY : Bytes := [65, 117, 116, 104, 75, 101, 121]

/-- `const STR_EXPORT_KEY: [u8; 9] = *b"ExportKey"` -/
def STR_EXPORT_KEY : Bytes := [69, 120, 112, 111, 114, 116, 75, 101, 121]

/-- `const STR_PRIVATE_KEY: [u8; 10] = *b"PrivateKey"` -/
def STR_PRIVATE_KEY : Bytes := [80, 114, 105, 118, 97, 116, 101, 75, 101, 121]

/-- `const STR_OPAQUE_DERIVE_AUTH_KEY_PAIR: [u8; 24] = *b"OPAQUE-DeriveAuthKeyPair"` -/
def STR_OPAQUE_DERIVE_AUTH_KEY_PAIR : Bytes :=
  [79, 80, 65, 81, 85, 69, 45, 68, 101, 114, 105, 118, 101,
   65, 117, 116, 104, 75, 101, 121, 80, 97, 105, 114]

/-- `type NonceLen = U32;` — the nonce is 32 bytes. -/
def NonceLen : Nat := 32

/-- `enum InnerEnvelopeMode { Zero = 0, Internal = 1 }` -/
inductive InnerEnvelopeMode where
  | Zero
  | Internal
deriving DecidableEq, Repr

/-- Union of the source's `ProtocolError` and `InternalError` variants that the
envelope module can produce (`InternalError` converts into `ProtocolError`
via `.into()` in the source). -/
inductive ProtocolError where
  | SerializationError
  | IncompatibleEnvelopeModeError
  | HkdfError
  | HmacError
  | SealOpenHmacError
deriving DecidableEq, Repr

/-- Modelled from the spec: the external cryptographic collaborators consumed
(not owned) by the envelope core, per spec §6 "Capabilities required from
collaborators": keyed expansion (`expand`), keyed MAC, `hash_to_scalar` with a
domain separator, and scalar-to-public-point derivation.  `H` is the hash
output size, `skLen` the group's seed/secret-key length.  The two length
fields record what the interfaces guarantee: expansion fills a buffer of the
requested length and MAC tags have the hash output size. -/
structure Primitives where
  H : Nat
  skLen : Nat
  hkdfExpand : Bytes → Bytes → Nat → Bytes
  hmacFn : Bytes → Bytes → Bytes
  hashToScalar : List Bytes → Bytes → Bytes
  scalarToPub : Bytes → Bytes
  hkdfExpand_length : ∀ prk info n, (hkdfExpand prk info n).length = n
  hmacFn_length : ∀ key msg, (hmacFn key msg).length = H

/-- Modelled from the spec: `Hkdf::expand` of the external hkdf crate — keyed
expansion of the handle `prk` with a single `info` byte string into `outLen`
bytes (spec §4.1). -/
def Hkdf.expand (P : Primitives) (prk info : Bytes) (outLen : Nat) : Bytes :=
  P.hkdfExpand prk info outLen

/-- Modelled from the spec: `Hkdf::expand_multi_info` of the external hkdf
crate — keyed expansion with an ordered multi-part info list.  Per spec §4.1 a
correct keyed-expansion implementation "treats info as one logical byte string
regardless of how the caller chunks it", so the parts are concatenated. -/
def Hkdf.expand_multi_info (P : Primitives) (prk : Bytes) (infos : List Bytes)
    (outLen : Nat) : Bytes :=
  P.hkdfExpand prk infos.flatten outLen

/-- `struct Envelope { mode, nonce, hmac }` (`envelope.rs` lines 66–75). -/
structure Envelope where
  mode : InnerEnvelopeMode
  nonce : Bytes
  hmac : Bytes
deriving DecidableEq, Repr

/-- Client static key pair in the key-exchange group; scalars and points are
kept as their byte serializations. -/
structure KeyPair where
  privateKey : Bytes
  public : Bytes
deriving DecidableEq, Repr

/-- Modelled from the spec: `KeyPair::from_private_key_slice` (crate::keypair,
not in src/) — "derive a key pair from a byte seed": the public point is
`scalar_mul_base(scalar)` serialized (spec §2, §6). -/
def KeyPair.from_private_key_slice (P : Primitives) (sk : Bytes) : KeyPair :=
  ⟨sk, P.scalarToPub sk⟩

/-- `Identifiers`: the optionally-absent client and server identities. -/
structure Identifiers where
  client : Option Bytes
  server : Option Bytes

/-- Modelled from the spec: `bytestrings_from_identifiers` (crate::opaque, not
in src/) — "identity resolution returns either a caller-supplied identity or
the serialized public key bytes" (spec §4.2); returns `(id_u, id_s)`. -/
def bytestrings_from_identifiers (ids : Identifiers)
    (client_s_pk server_s_pk : Bytes) : Bytes × Bytes :=
  (ids.client.getD client_s_pk, ids.server.getD server_s_pk)

/-- `construct_aad` (`envelope.rs` lines 353–359):
`[server_s_pk].into_iter().chain(id_s).chain(id_u)`.  The iterators of byte
slices are modelled as lists of byte strings. -/
def construct_aad (id_u id_s : List Bytes) (server_s_pk : Bytes) : List Bytes :=
  [server_s_pk] ++ id_s ++ id_u

/-- `OpenedInnerEnvelope` (`envelope.rs` lines 93–100). -/
structure OpenedInnerEnvelope where
  export_key : Bytes
deriving DecidableEq, Repr

/-- `OpenedEnvelope` (`envelope.rs` lines 81–91). -/
structure OpenedEnvelope where
  client_static_keypair : KeyPair
  export_key : Bytes
  id_u : Bytes
  id_s : Bytes
deriving DecidableEq, Repr

/-- `rng.fill_bytes(&mut nonce)`: the first `n` bytes of the modelled random
byte stream. -/
def fill_bytes (rng : Nat → Nat) (n : Nat) : Bytes :=
  (List.range n).map rng

/-- `build_inner_envelope_internal` (`envelope.rs` lines 307–328): expand the
handle under info `nonce ‖ "PrivateKey"` to a seed of the group's secret-key
length, hash the seed to a scalar under domain separator
`"OPAQUE-DeriveAuthKeyPair"`, build the key pair, and keep the public half. -/
def build_inner_envelope_internal (P : Primitives) (prk nonce : Bytes) : Bytes :=
  let keypair_seed := Hkdf.expand P prk (nonce ++ STR_PRIVATE_KEY) P.skLen
  let client_static_keypair := KeyPair.from_private_key_slice P
    (P.hashToScalar [keypair_seed] STR_OPAQUE_DERIVE_AUTH_KEY_PAIR)
  client_static_keypair.public

/-- `recover_keys_internal` (`envelope.rs` lines 330–351): textually the same
derivation as `build_inner_envelope_internal`, keeping the full pair. -/
def recover_keys_internal (P : Primitives) (prk nonce : Bytes) : KeyPair :=
  let keypair_seed := Hkdf.expand P prk (nonce ++ STR_PRIVATE_KEY) P.skLen
  let client_static_keypair := KeyPair.from_private_key_slice P
    (P.hashToScalar [keypair_seed] STR_OPAQUE_DERIVE_AUTH_KEY_PAIR)
  client_static_keypair

/-- `Envelope::seal_raw` (`envelope.rs` lines 159–192): derive the auth key
under multi-part info `[nonce, "AuthKey"]` and the export key under
`[nonce, "ExportKey"]`, MAC the nonce followed by the aad parts, and package
the envelope.  Returns `(envelope, export_key, hmac_key)` — the third
component is the `#[cfg(test)]` extra output of the source.  The source's
fallible primitive calls (HKDF length check, HMAC key-length check) cannot
fail in this model, whose primitives are total. -/
def Envelope.seal_raw (P : Primitives) (prk nonce : Bytes) (aad : List Bytes)
    (mode : InnerEnvelopeMode) : Envelope × Bytes × Bytes :=
  let hmac_key := Hkdf.expand_multi_info P prk [nonce, STR_AUTH_KEY] P.H
  let export_key := Hkdf.expand_multi_info P prk [nonce, STR_EXPORT_KEY] P.H
  let hmac_bytes := P.hmacFn hmac_key (nonce ++ aad.flatten)
  (⟨mode, nonce, hmac_bytes⟩, export_key, hmac_key)

/-- `Envelope::seal` (`envelope.rs` lines 125–154): sample a 32-byte nonce
from the rng, derive the client public key, resolve identities, build the aad
and call `seal_raw` with mode `Internal`.  Returns
`(envelope, client_s_pk, export_key, hmac_key)` — the `#[cfg(test)]` shape of
`SealResult`. -/
def Envelope.seal (P : Primitives) (rng : Nat → Nat) (prk server_s_pk : Bytes)
    (ids : Identifiers) : Envelope × Bytes × Bytes × Bytes :=
  let nonce := fill_bytes rng NonceLen
  let mode := InnerEnvelopeMode.Internal
  let client_s_pk := build_inner_envelope_internal P prk nonce
  let p := bytestrings_from_identifiers ids client_s_pk server_s_pk
  let aad := construct_aad [p.1] [p.2] server_s_pk
  let result := Envelope.seal_raw P prk nonce aad mode
  (result.1, client_s_pk, result.2.1, result.2.2)

/-- `Envelope::open_raw` (`envelope.rs` lines 228–251): re-derive the auth key
under the single concatenated info `nonce ‖ "AuthKey"` and the export key
under `nonce ‖ "ExportKey"`, recompute the MAC over the nonce followed by the
aad parts, and verify it against the stored tag; mismatch is
`SealOpenHmacError`. -/
def Envelope.open_raw (P : Primitives) (env : Envelope) (prk : Bytes)
    (aad : List Bytes) : Except ProtocolError OpenedInnerEnvelope :=
  let hmac_key := Hkdf.expand P prk (env.nonce ++ STR_AUTH_KEY) P.H
  let export_key := Hkdf.expand P prk (env.nonce ++ STR_EXPORT_KEY) P.H
  let hmac_bytes := P.hmacFn hmac_key (env.nonce ++ aad.flatten)
  if hmac_bytes = env.hmac then Except.ok ⟨export_key⟩
  else Except.error ProtocolError.SealOpenHmacError

/-- `Envelope::open` (`envelope.rs` lines 194–224): reject `Zero` mode with
`IncompatibleEnvelopeModeError`; otherwise recover the full client key pair
from the stored nonce, rebuild the aad and verify via `open_raw`.  (`open` is
a Lean keyword, hence the name `open_envelope`.) -/
def Envelope.open_envelope (P : Primitives) (env : Envelope)
    (prk server_s_pk : Bytes) (ids : Identifiers) :
    Except ProtocolError OpenedEnvelope :=
  match env.mode with
  | InnerEnvelopeMode.Zero =>
      Except.error ProtocolError.IncompatibleEnvelopeModeError
  | InnerEnvelopeMode.Internal =>
      let client_static_keypair := recover_keys_internal P prk env.nonce
      let p := bytestrings_from_identifiers ids client_static_keypair.public
        server_s_pk
      let aad := construct_aad [p.1] [p.2] server_s_pk
      match Envelope.open_raw P env prk aad with
      | Except.error e => Except.error e
      | Except.ok opened =>
          Except.ok ⟨client_static_keypair, opened.export_key, p.1, p.2⟩

/-- `Envelope::dummy` (`envelope.rs` lines 254–260): mode `Zero`, all-zero
nonce and mac (`GenericArray::default()` is all zeros). -/
def Envelope.dummy (P : Primitives) : Envelope :=
  ⟨InnerEnvelopeMode.Zero, List.replicate NonceLen 0, List.replicate P.H 0⟩

/-- `Envelope::hmac_key_size` (`envelope.rs` lines 262–264). -/
def Envelope.hmac_key_size (P : Primitives) : Nat := P.H

/-- `Envelope::len` (`envelope.rs` lines 266–268). -/
def Envelope.len (P : Primitives) : Nat := P.H + NonceLen

/-- `Envelope::serialize` (`envelope.rs` lines 270–277):
`nonce ‖ mac`, no mode byte, no length prefixes. -/
def Envelope.serialize (env : Envelope) : Bytes :=
  env.nonce ++ env.hmac

/-- Modelled from the spec: `check_slice_size` (crate::errors::utils, not in
src/) — "size-checked, fatal on mismatch" (spec §4.7): the slice must have
exactly the expected length, else `SerializationError`. -/
def check_slice_size (slice : Bytes) (expected : Nat) :
    Except ProtocolError Bytes :=
  if slice.length = expected then Except.ok slice
  else Except.error ProtocolError.SerializationError

/-- `Envelope::deserialize` (`envelope.rs` lines 279–302): the mode is
hard-coded to `Internal`; inputs shorter than 32 bytes are rejected with
`SerializationError`; the first 32 bytes become the nonce and the remainder,
size-checked to the hash output length, becomes the mac.  The `Zero` arm of
the source's `match mode` is dead code and is reproduced as such. -/
def Envelope.deserialize (P : Primitives) (bytes : Bytes) :
    Except ProtocolError Envelope :=
  let mode := InnerEnvelopeMode.Internal
  if bytes.length < NonceLen then Except.error ProtocolError.SerializationError
  else
    let nonce := bytes.take NonceLen
    match mode with
    | InnerEnvelopeMode.Zero =>
        Except.error ProtocolError.IncompatibleEnvelopeModeError
    | InnerEnvelopeMode.Internal =>
      let remainder := bytes.drop NonceLen
      match check_slice_size remainder (Envelope.hmac_key_size P) with
      | Except.error e => Except.error e
      | Except.ok hmac => Except.ok ⟨mode, nonce, hmac⟩

/-- A concrete, executable instance of the collaborator interface, used to
evaluate the development on concrete inputs (a toy pseudorandom family; no
cryptographic strength is needed for evaluation). -/
def P0 : Primitives where
  H := 2
  skLen := 3
  hkdfExpand := fun prk info n =>
    (List.range n).map fun i => (prk.sum + 3 * info.sum + 7 * i + 1) % 256
  hmacFn := fun key msg =>
    (List.range 2).map fun i => (5 * key.sum + msg.sum + 11 * i + 2) % 256
  hashToScalar := fun inp dst => [(inp.flatten ++ dst).sum % 251]
  scalarToPub := fun sk => sk.map fun b => (b + 1) % 256
  hkdfExpand_length := by intro prk info n; simp
  hmacFn_length := by intro key msg; simp

/-! ### Helper lemmas (shared by several claim proofs) -/

/-- Opening an `Internal`-mode envelope unfolds to key recovery, identity
resolution, aad construction and `open_raw`. -/
theorem open_envelope_internal (P : Primitives) (nonce hmacv prk server_s_pk : Bytes)
    (ids : Identifiers) :
    Envelope.open_envelope P ⟨InnerEnvelopeMode.Internal, nonce, hmacv⟩ prk
      server_s_pk ids =
    (let kp := recover_keys_internal P prk nonce
     let p := bytestrings_from_identifiers ids kp.public server_s_pk
     match Envelope.open_raw P ⟨InnerEnvelopeMode.Internal, nonce, hmacv⟩ prk
         (construct_aad [p.1] [p.2] server_s_pk) with
     | Except.error e => Except.error e
     | Except.ok opened => Except.ok ⟨kp, opened.export_key, p.1, p.2⟩) := rfl

/-- `open_raw` fails with `SealOpenHmacError` when the recomputed tag differs
from the stored one. -/
theorem open_raw_mac_ne (P : Primitives) (env : Envelope) (prk : Bytes)
    (aad : List Bytes)
    (h : P.hmacFn (Hkdf.expand P prk (env.nonce ++ STR_AUTH_KEY) P.H)
        (env.nonce ++ aad.flatten) ≠ env.hmac) :
    Envelope.open_raw P env prk aad =
      Except.error ProtocolError.SealOpenHmacError := by
  simp only [Envelope.open_raw]
  rw [if_neg h]

/-- `deserialize` only ever reconstructs the mode as `Internal`. -/
theorem deserialize_ok_mode (P : Primitives) (bytes : Bytes) (env : Envelope)
    (h : Envelope.deserialize P bytes = Except.ok env) :
    env.mode = InnerEnvelopeMode.Internal := by
  simp only [Envelope.deserialize, check_slice_size, Envelope.hmac_key_size,
    NonceLen] at h
  split at h
  · simp at h
  · split at h
    · simp at h
    · cases h
      rfl

/-- Opening an `Internal`-mode envelope can only fail with
`SealOpenHmacError` (once the external primitives are total, `open_raw`'s MAC
comparison is the sole remaining failure point). -/
theorem open_internal_error_eq (P : Primitives) (nonce hmacv prk server_s_pk : Bytes)
    (ids : Identifiers) (e : ProtocolError)
    (h : Envelope.open_envelope P ⟨InnerEnvelopeMode.Internal, nonce, hmacv⟩ prk
        server_s_pk ids = Except.error e) :
    e = ProtocolError.SealOpenHmacError := by
  rw [open_envelope_internal] at h
  simp only [Envelope.open_raw] at h
  split at h
  · rename_i e' heq
    split at heq
    · cases heq
    · cases heq
      injection h with h
      exact h.symm
  · cases h

/-! ### Claim theorems -/

/-- Claim C7: the client key-pair derivation performed by seal
(`build_inner_envelope_internal`) and by open (`recover_keys_internal`) is
identical: the former's public key is the public half of the latter's pair,
and both expand the handle under info `nonce ‖ "PrivateKey"` and hash the
seed to a scalar under domain separator `"OPAQUE-DeriveAuthKeyPair"`. -/
theorem seal_open_keypair_derivation_identical (P : Primitives)
    (prk nonce : Bytes) :
    build_inner_envelope_internal P prk nonce =
      (recover_keys_internal P prk nonce).public
    ∧ recover_keys_internal P prk nonce =
        KeyPair.from_private_key_slice P
          (P.hashToScalar [Hkdf.expand P prk (nonce ++ STR_PRIVATE_KEY) P.skLen]
            STR_OPAQUE_DERIVE_AUTH_KEY_PAIR) :=
  ⟨rfl, rfl⟩

/-- Claim C2: the two HKDF call shapes are interchangeable — expanding with
the multi-part info list `[nonce, label]` (as `seal_raw` does) equals
expanding with the single concatenated info `nonce ‖ label` (as `open_raw`
does); consequently `seal_raw`'s auth key and export key equal the ones
`open_raw` derives from the same handle and nonce, and `open_raw` accepts a
`seal_raw` envelope returning the very same export key. -/
theorem expand_multi_info_eq_expand :
    (∀ (P : Primitives) (prk nonce label : Bytes) (outLen : Nat),
      Hkdf.expand_multi_info P prk [nonce, label] outLen =
        Hkdf.expand P prk (nonce ++ label) outLen)
    ∧ (∀ (P : Primitives) (prk nonce : Bytes) (aad : List Bytes)
        (mode : InnerEnvelopeMode),
      (Envelope.seal_raw P prk nonce aad mode).2.2 =
        Hkdf.expand P prk (nonce ++ STR_AUTH_KEY) P.H
      ∧ (Envelope.seal_raw P prk nonce aad mode).2.1 =
        Hkdf.expand P prk (nonce ++ STR_EXPORT_KEY) P.H
      ∧ Envelope.open_raw P (Envelope.seal_raw P prk nonce aad mode).1 prk aad =
        Except.ok ⟨(Envelope.seal_raw P prk nonce aad mode).2.1⟩) := by
  constructor
  · intro P prk nonce label outLen
    simp [Hkdf.expand_multi_info, Hkdf.expand]
  · intro P prk nonce aad mode
    refine ⟨by simp [Envelope.seal_raw, Hkdf.expand_multi_info, Hkdf.expand],
      by simp [Envelope.seal_raw, Hkdf.expand_multi_info, Hkdf.expand], ?_⟩
    simp [Envelope.seal_raw, Envelope.open_raw, Hkdf.expand_multi_info,
      Hkdf.expand]

/-- Claim C3: opening the `dummy()` envelope (mode `Zero`) always fails with
`IncompatibleEnvelopeModeError`, for every secret handle, server public key
and identity pair — the `Zero` branch of `open` returns before any
derivation. -/
theorem open_dummy_incompatible_mode (P : Primitives)
    (prk server_s_pk : Bytes) (ids : Identifiers) :
    Envelope.open_envelope P (Envelope.dummy P) prk server_s_pk ids =
      Except.error ProtocolError.IncompatibleEnvelopeModeError := rfl

/-- Claim C5: the associated data authenticated by the MAC is exactly the
ordered sequence `[server_public_key, server_identity, client_identity]`:
`construct_aad` produces it, and both `seal` and `open` feed precisely this
sequence (with the resolved identities) to `seal_raw` / `open_raw`. -/
theorem mac_aad_order :
    (∀ (id_u id_s : List Bytes) (server_s_pk : Bytes),
      construct_aad id_u id_s server_s_pk = [server_s_pk] ++ id_s ++ id_u)
    ∧ (∀ (P : Primitives) (rng : Nat → Nat) (prk server_s_pk : Bytes)
        (ids : Identifiers),
      Envelope.seal P rng prk server_s_pk ids =
        (let nonce := fill_bytes rng NonceLen
         let client_s_pk := build_inner_envelope_internal P prk nonce
         let p := bytestrings_from_identifiers ids client_s_pk server_s_pk
         let result := Envelope.seal_raw P prk nonce [server_s_pk, p.2, p.1]
           InnerEnvelopeMode.Internal
         (result.1, client_s_pk, result.2.1, result.2.2)))
    ∧ (∀ (P : Primitives) (nonce hmacv prk server_s_pk : Bytes)
        (ids : Identifiers),
      Envelope.open_envelope P ⟨InnerEnvelopeMode.Internal, nonce, hmacv⟩ prk
          server_s_pk ids =
        (let kp := recover_keys_internal P prk nonce
         let p := bytestrings_from_identifiers ids kp.public server_s_pk
         match Envelope.open_raw P ⟨InnerEnvelopeMode.Internal, nonce, hmacv⟩
             prk [server_s_pk, p.2, p.1] with
         | Except.error e => Except.error e
         | Except.ok opened => Except.ok ⟨kp, opened.export_key, p.1, p.2⟩)) :=
  ⟨fun _ _ _ => rfl, fun _ _ _ _ _ => rfl, fun _ _ _ _ _ _ => rfl⟩

/-- Claim C1: round-trip — opening the envelope produced by `seal` with the
same secret handle, server public key and identities succeeds and returns a
client static key pair whose public half equals the public key returned by
`seal`, and an export key bit-identical to the one `seal` returned (the
32-byte nonce is the prefix of the modelled random stream, so quantifying
over all streams covers every 32-byte nonce). -/
theorem seal_open_roundtrip (P : Primitives) (rng : Nat → Nat)
    (prk server_s_pk : Bytes) (ids : Identifiers) :
    ∃ o : OpenedEnvelope,
      Envelope.open_envelope P (Envelope.seal P rng prk server_s_pk ids).1 prk
        server_s_pk ids = Except.ok o
      ∧ o.client_static_keypair.public =
          (Envelope.seal P rng prk server_s_pk ids).2.1
      ∧ o.export_key = (Envelope.seal P rng prk server_s_pk ids).2.2.1 := by
  refine ⟨⟨recover_keys_internal P prk (fill_bytes rng NonceLen),
    Hkdf.expand P prk (fill_bytes rng NonceLen ++ STR_EXPORT_KEY) P.H,
    (bytestrings_from_identifiers ids
      (recover_keys_internal P prk (fill_bytes rng NonceLen)).public
      server_s_pk).1,
    (bytestrings_from_identifiers ids
      (recover_keys_internal P prk (fill_bytes rng NonceLen)).public
      server_s_pk).2⟩, ?_, rfl, rfl⟩
  simp [Envelope.seal, Envelope.seal_raw, Envelope.open_envelope,
    Envelope.open_raw, Hkdf.expand, Hkdf.expand_multi_info,
    build_inner_envelope_internal, recover_keys_internal,
    KeyPair.from_private_key_slice, bytestrings_from_identifiers,
    construct_aad]

/-- Claim C4: `deserialize` rejects inputs shorter than 32 bytes with
`SerializationError`; on longer input it takes the first 32 bytes as nonce and
requires the remainder to be exactly the hash output length, failing
otherwise; every successfully deserialized envelope has mode `Internal`. -/
theorem deserialize_spec (P : Primitives) (bytes : Bytes) :
    (bytes.length < 32 →
      Envelope.deserialize P bytes =
        Except.error ProtocolError.SerializationError)
    ∧ (bytes.length = 32 + P.H →
      Envelope.deserialize P bytes =
        Except.ok ⟨InnerEnvelopeMode.Internal, bytes.take 32, bytes.drop 32⟩)
    ∧ (32 ≤ bytes.length → bytes.length ≠ 32 + P.H →
      Envelope.deserialize P bytes =
        Except.error ProtocolError.SerializationError)
    ∧ (∀ env, Envelope.deserialize P bytes = Except.ok env →
      env.mode = InnerEnvelopeMode.Internal) := by
  refine ⟨?_, ?_, ?_, fun env h => deserialize_ok_mode P bytes env h⟩
  · intro h
    simp [Envelope.deserialize, NonceLen, h]
  · intro h
    have h1 : ¬bytes.length < 32 := by omega
    have h2 : (bytes.drop 32).length = P.H := by simp; omega
    simp [Envelope.deserialize, NonceLen, check_slice_size,
      Envelope.hmac_key_size, h1, h2]
  · intro h h'
    have h1 : ¬bytes.length < 32 := by omega
    have h2 : ¬(bytes.length - 32 = P.H) := by omega
    simp [Envelope.deserialize, NonceLen, check_slice_size,
      Envelope.hmac_key_size, h1, h2]

/-- Witness for C4: a 34-byte all-zero input under `P0` (hash output size 2)
deserializes into the `Internal`-mode envelope made of its first 32 and last
2 bytes. -/
theorem deserialize_spec_witness :
    (List.replicate 34 (0 : Nat)).length = 32 + P0.H
    ∧ Envelope.deserialize P0 (List.replicate 34 0) =
        Except.ok ⟨InnerEnvelopeMode.Internal, (List.replicate 34 (0 : Nat)).take 32,
          (List.replicate 34 (0 : Nat)).drop 32⟩ :=
  ⟨by decide, (deserialize_spec P0 (List.replicate 34 0)).2.1 (by decide)⟩

/-- Claim C6: when the MAC recomputed by `open` differs from the stored tag,
`open` returns the authentication error `SealOpenHmacError` and nothing else —
the `Except.error` result carries neither the export key nor the key pair
derived during the failed attempt. -/
theorem open_mac_mismatch_fails (P : Primitives)
    (nonce hmacv prk server_s_pk : Bytes) (ids : Identifiers)
    (h : P.hmacFn (Hkdf.expand P prk (nonce ++ STR_AUTH_KEY) P.H)
        (nonce ++ (construct_aad
          [(bytestrings_from_identifiers ids
             (recover_keys_internal P prk nonce).public server_s_pk).1]
          [(bytestrings_from_identifiers ids
             (recover_keys_internal P prk nonce).public server_s_pk).2]
          server_s_pk).flatten) ≠ hmacv) :
    Envelope.open_envelope P ⟨InnerEnvelopeMode.Internal, nonce, hmacv⟩ prk
      server_s_pk ids = Except.error ProtocolError.SealOpenHmacError := by
  rw [open_envelope_internal]
  have hh := open_raw_mac_ne P ⟨InnerEnvelopeMode.Internal, nonce, hmacv⟩ prk
    (construct_aad
      [(bytestrings_from_identifiers ids
         (recover_keys_internal P prk nonce).public server_s_pk).1]
      [(bytestrings_from_identifiers ids
         (recover_keys_internal P prk nonce).public server_s_pk).2]
      server_s_pk) h
  simp [hh]

/-- Witness for C6: under `P0`, the stored tag `[7, 7]` differs from the tag
recomputed for the all-zero nonce, so `open` fails with `SealOpenHmacError`. -/
theorem open_mac_mismatch_fails_witness :
    P0.hmacFn (Hkdf.expand P0 [1] (List.replicate 32 0 ++ STR_AUTH_KEY) P0.H)
        (List.replicate 32 0 ++ (construct_aad
          [(bytestrings_from_identifiers ⟨none, none⟩
             (recover_keys_internal P0 [1] (List.replicate 32 0)).public
             [2, 3]).1]
          [(bytestrings_from_identifiers ⟨none, none⟩
             (recover_keys_internal P0 [1] (List.replicate 32 0)).public
             [2, 3]).2]
          [2, 3]).flatten) ≠ [7, 7]
    ∧ Envelope.open_envelope P0
        ⟨InnerEnvelopeMode.Internal, List.replicate 32 0, [7, 7]⟩ [1] [2, 3]
        ⟨none, none⟩ = Except.error ProtocolError.SealOpenHmacError :=
  ⟨by decide, open_mac_mismatch_fails P0 (List.replicate 32 0) [7, 7] [1] [2, 3]
    ⟨none, none⟩ (by decide)⟩

/-- Claim C8: `dummy()` serializes to the all-zero byte string of length
`32 + H`, and every sealed envelope serializes to exactly `32 + H` bytes,
regardless of identity lengths or the choice of primitives. -/
theorem serialize_length_invariant (P : Primitives) :
    Envelope.serialize (Envelope.dummy P) = List.replicate (32 + P.H) 0
    ∧ (Envelope.serialize (Envelope.dummy P)).length = 32 + P.H
    ∧ ∀ (rng : Nat → Nat) (prk server_s_pk : Bytes) (ids : Identifiers),
      (Envelope.serialize (Envelope.seal P rng prk server_s_pk ids).1).length =
        32 + P.H := by
  refine ⟨?_, ?_, ?_⟩
  · simp [Envelope.serialize, Envelope.dummy, NonceLen, List.replicate_add]
  · simp [Envelope.serialize, Envelope.dummy, NonceLen]
    omega
  · intro rng prk server_s_pk ids
    simp [Envelope.serialize, Envelope.seal, Envelope.seal_raw, fill_bytes,
      NonceLen, P.hmacFn_length]

/-- Claim C9: `seal` is deterministic given its nonce — the random stream is
consumed only for the 32 nonce bytes, so two streams agreeing on those bytes
yield byte-identical envelopes, client public keys and export keys. -/
theorem seal_deterministic (P : Primitives) (prk server_s_pk : Bytes)
    (ids : Identifiers) (rng rng' : Nat → Nat)
    (h : ∀ i, i < NonceLen → rng i = rng' i) :
    Envelope.seal P rng prk server_s_pk ids =
      Envelope.seal P rng' prk server_s_pk ids := by
  have hn : (List.range NonceLen).map rng = (List.range NonceLen).map rng' :=
    List.map_congr_left fun i hi => h i (List.mem_range.mp hi)
  simp only [Envelope.seal, fill_bytes, hn]

/-- Witness for C9: two concrete streams agreeing on their first 32 bytes
(but differing beyond) seal identically under `P0`. -/
theorem seal_deterministic_witness :
    Envelope.seal P0 (fun i => i) [1] [2, 3] ⟨none, none⟩ =
      Envelope.seal P0 (fun i => if i < NonceLen then i else 0) [1] [2, 3]
        ⟨none, none⟩ :=
  seal_deterministic P0 [1] [2, 3] ⟨none, none⟩ (fun i => i)
    (fun i => if i < NonceLen then i else 0) (fun i hi => (if_pos hi).symm)

/-- Claim C10: `Zero` mode does not survive a serialization round-trip:
`deserialize (serialize (dummy()))` succeeds and yields an `Internal`-mode
envelope with all-zero nonce and mac; an envelope obtained from `deserialize`
can never make `open` fail with `IncompatibleEnvelopeModeError` (any failure
is the MAC error `SealOpenHmacError`); and opening the round-tripped dummy
fails with `SealOpenHmacError` whenever the recomputed tag differs from the
all-zero mac (which holds for any real MAC up to a negligible-probability
collision, and is checked concretely in the witness). -/
theorem zero_mode_not_roundtrip (P : Primitives) :
    Envelope.deserialize P (Envelope.serialize (Envelope.dummy P)) =
      Except.ok ⟨InnerEnvelopeMode.Internal, List.replicate 32 0,
        List.replicate P.H 0⟩
    ∧ (∀ (bytes : Bytes) (env : Envelope) (prk server_s_pk : Bytes)
        (ids : Identifiers) (e : ProtocolError),
      Envelope.deserialize P bytes = Except.ok env →
      Envelope.open_envelope P env prk server_s_pk ids = Except.error e →
      e = ProtocolError.SealOpenHmacError)
    ∧ (∀ (prk server_s_pk : Bytes) (ids : Identifiers),
      P.hmacFn (Hkdf.expand P prk (List.replicate 32 0 ++ STR_AUTH_KEY) P.H)
          (List.replicate 32 0 ++ (construct_aad
            [(bytestrings_from_identifiers ids
               (recover_keys_internal P prk (List.replicate 32 0)).public
               server_s_pk).1]
            [(bytestrings_from_identifiers ids
               (recover_keys_internal P prk (List.replicate 32 0)).public
               server_s_pk).2]
            server_s_pk).flatten) ≠ List.replicate P.H 0 →
      Envelope.open_envelope P
        ⟨InnerEnvelopeMode.Internal, List.replicate 32 0, List.replicate P.H 0⟩
        prk server_s_pk ids = Except.error ProtocolError.SealOpenHmacError) := by
  refine ⟨?_, ?_, ?_⟩
  · have hser : Envelope.serialize (Envelope.dummy P) =
        List.replicate 32 (0 : Nat) ++ List.replicate P.H 0 := rfl
    rw [hser]
    have h1 : ¬(32 + P.H < 32) := by omega
    have ht : (List.replicate 32 (0 : Nat) ++ List.replicate P.H 0).take 32 =
        List.replicate 32 0 := List.take_left' (by simp)
    have hd : (List.replicate 32 (0 : Nat) ++ List.replicate P.H 0).drop 32 =
        List.replicate P.H 0 := List.drop_left' (by simp)
    simp [Envelope.deserialize, NonceLen, check_slice_size,
      Envelope.hmac_key_size, h1, ht, hd]
  · intro bytes env prk server_s_pk ids e hdes hopen
    obtain ⟨m, n, t⟩ := env
    have hm : m = InnerEnvelopeMode.Internal :=
      deserialize_ok_mode P bytes ⟨m, n, t⟩ hdes
    subst hm
    exact open_internal_error_eq P n t prk server_s_pk ids e hopen
  · intro prk server_s_pk ids h
    rw [open_envelope_internal]
    have hh := open_raw_mac_ne P
      ⟨InnerEnvelopeMode.Internal, List.replicate 32 0, List.replicate P.H 0⟩
      prk (construct_aad
        [(bytestrings_from_identifiers ids
           (recover_keys_internal P prk (List.replicate 32 0)).public
           server_s_pk).1]
        [(bytestrings_from_identifiers ids
           (recover_keys_internal P prk (List.replicate 32 0)).public
           server_s_pk).2]
        server_s_pk) h
    simp only [hh]

/-- Witness for C10: under `P0` the tag recomputed over the round-tripped
dummy is not all-zero, so opening it fails with `SealOpenHmacError` (and not
`IncompatibleEnvelopeModeError`). -/
theorem zero_mode_not_roundtrip_witness :
    P0.hmacFn (Hkdf.expand P0 [1] (List.replicate 32 0 ++ STR_AUTH_KEY) P0.H)
        (List.replicate 32 0 ++ (construct_aad
          [(bytestrings_from_identifiers ⟨none, none⟩
             (recover_keys_internal P0 [1] (List.replicate 32 0)).public
             [2, 3]).1]
          [(bytestrings_from_identifiers ⟨none, none⟩
             (recover_keys_internal P0 [1] (List.replicate 32 0)).public
             [2, 3]).2]
          [2, 3]).flatten) ≠ List.replicate P0.H 0
    ∧ Envelope.open_envelope P0
        ⟨InnerEnvelopeMode.Internal, List.replicate 32 0, List.replicate P0.H 0⟩
        [1] [2, 3] ⟨none, none⟩ =
          Except.error ProtocolError.SealOpenHmacError :=
  ⟨by decide, (zero_mode_not_roundtrip P0).2.2 [1] [2, 3] ⟨none, none⟩
    (by decide)⟩

end OpaqueKe
